import Mathlib

/-!
Shallow embedding of the core of `roblox_player_tracker` (a Rust Discord bot
that tracks Roblox players), together with proofs checking the repository's
natural-language specification against the code.

Each definition is translated from a named function of the source tree
(`src/src/...`); theorems at the end settle the spec claims.
-/

set_option linter.unusedVariables false

namespace Tracker

/-! ## Constants (`src/src/constants.rs`) -/

def CHANNEL_LIMIT : Nat := 5
def TARGET_LIMIT : Nat := 100
def GAME_LIMIT : Nat := 100
def DESCRIPTION_MAX_LENGTH : Nat := 4096
def MISSING_TARGET_TOLERANCE : Nat := 3

/-- Serenity's `EMBED_MAX_LENGTH` (external library constant, value 6000):
the maximum total character count of all embeds in one Discord message.
Used by `render_lines_message` in `src/src/message_utils.rs`. -/
def EMBED_MAX_LENGTH : Nat := 6000

/-! ## Target states (`src/src/roblox/tracking.rs`)

`TargetState` is the last-known location of a target.  Roblox ids are
modelled as `Nat`; a server UUID is opaque, only compared for equality,
so it is also modelled as `Nat`. -/

structure TargetState where
  game : Nat
  server : Nat
deriving Repr, DecidableEq

/-! ## Update-loop predicates (`src/src/roblox/update.rs`) -/

/-- `is_ping_states` from `src/src/roblox/update.rs` (lines 28-39). -/
def is_ping_states (old_state current_state : Option TargetState) : Bool :=
  match current_state with
  | some current =>
    match old_state with
    | some old => current.server != old.server
    | none => true
  | none => false

/-- `is_different_states` from `src/src/roblox/update.rs` (lines 40-55). -/
def is_different_states (old_state current_state : Option TargetState) : Bool :=
  match current_state, old_state with
  | some current, some old =>
    if current.server == old.server then false else true
  | none, none => false
  | _, _ => true

/-! ## Serenity errors and the send/edit state machine
(`src/src/roblox/update.rs`)

A `SerenityError` is either an HTTP `UnsuccessfulRequest` carrying a Discord
error code, or any other error (transport errors, non-HTTP errors, ...):
the retry/branch predicates in the source only ever inspect the
`SerenityError::Http(HttpError::UnsuccessfulRequest(err))` pattern. -/

inductive SerenityError where
  /-- `SerenityError::Http(HttpError::UnsuccessfulRequest { code })` -/
  | http (code : Nat)
  /-- every other error shape -/
  | other
deriving Repr, DecidableEq

/-- `should_retry_send` from `src/src/roblox/update.rs` (lines 57-64). -/
def should_retry_send (err : SerenityError) : Bool :=
  match err with
  | .http code => if code = 10003 ∨ code = 50001 then false else true
  | .other => true

/-- `should_retry_delete` from `src/src/roblox/update.rs` (lines 65-72). -/
def should_retry_delete (err : SerenityError) : Bool :=
  match err with
  | .http code => if code = 10003 ∨ code = 50001 ∨ code = 10008 then false else true
  | .other => true

/-- `should_retry_edit` from `src/src/roblox/update.rs` (lines 73-80). -/
def should_retry_edit (err : SerenityError) : Bool :=
  match err with
  | .http code =>
    if code = 10003 ∨ code = 10008 ∨ code = 50005 ∨ code = 50001 then false else true
  | .other => true

/-- `should_send_message` from `src/src/roblox/update.rs` (lines 81-88). -/
def should_send_message (err : SerenityError) : Bool :=
  match err with
  | .http code => if code = 10008 ∨ code = 50005 then true else false
  | .other => false

/-- `should_delete_tracker` from `src/src/roblox/update.rs` (lines 89-100).
The Discord `Cache` is modelled by the two booleans the function reads:
whether the guild is in `cache.unavailable_guilds()` and whether the guild
is cached (`cache.guild(guild_id)`). -/
def should_delete_tracker (guild_unavailable guild_cached : Bool)
    (err : SerenityError) : Bool :=
  match err with
  | .http code =>
    if code = 10003 ∨ (code = 50001 ∧ guild_unavailable = false ∧ guild_cached = false)
    then true else false
  | .other => false

/-- Observable outcome of one `send_output` call
(`src/src/roblox/update.rs` lines 130-174): which branch ran and which
message id (if any) was written through `set_message`. -/
structure SendOutcome where
  /-- the `should_delete` branch was taken (a `delete_channel` is attempted) -/
  deleteAttempted : Bool
  /-- the send branch was taken (a `send_message` call is issued) -/
  sendAttempted : Bool
  /-- the message id passed to `set_message`, when the send succeeded and
  the channel could still be fetched from the store -/
  messageStored : Option Nat
deriving Repr, DecidableEq

/-- `send_output` from `src/src/roblox/update.rs` (lines 130-174), as a pure
transition on the externally visible effects.  The fallible environment is
passed in: `editRes` is the result of the (retried) edit call, only consulted
when `message_id` is present; `sendRes` is the result of the (retried) send
call, only consulted when the send branch runs; `getChannelOk` tells whether
the store still returns the channel for the best-effort `set_message`. -/
def send_output (message_id : Option Nat)
    (editRes : Except SerenityError Unit)
    (guild_unavailable guild_cached : Bool)
    (sendRes : Except SerenityError Nat)
    (getChannelOk : Bool) : SendOutcome :=
  let flags : Bool × Bool :=
    match message_id with
    | none => (false, false)
    | some _ =>
      match editRes with
      | .ok _ => (false, false)
      | .error err =>
        (should_send_message err, should_delete_tracker guild_unavailable guild_cached err)
  let should_send := flags.1
  let should_delete := flags.2
  if should_delete then
    { deleteAttempted := true, sendAttempted := false, messageStored := none }
  else if should_send || message_id.isNone then
    { deleteAttempted := false
      sendAttempted := true
      messageStored :=
        match sendRes with
        | .ok mid => if getChannelOk then some mid else none
        | .error _ => none }
  else
    { deleteAttempted := false, sendAttempted := false, messageStored := none }

/-! ## Tracking-cycle cleanup (`src/src/roblox/tracking.rs` lines 96-129)

`target_states_cleanup(games_and_targets, found_targets, missing_targets)`
mutates the `missing_targets` counter map and the global `target_states` map.
Maps are modelled as functions: `missing : Nat → Nat` with `0` encoding a
vacant entry (the source only ever stores counts ≥ 1: `entry(..).or_default()`
immediately increments), and `states : Nat → Option TargetState`.  Each step
of the source acts pointwise on keys, so the embedding is given per key. -/

/-- `all_targets`: union of all target lists of `games_and_targets`
(the `HashSet` built at the top of `target_states_cleanup`). -/
def allTargets (games_and_targets : List (Nat × List Nat)) : List Nat :=
  games_and_targets.foldr (fun p acc => p.2 ++ acc) []

/-- The `missing_targets.retain(|target, _| !found && all)` step. -/
def missingAfterRetain (games_and_targets : List (Nat × List Nat))
    (found_targets : List Nat) (missing : Nat → Nat) : Nat → Nat :=
  fun t =>
    if found_targets.contains t = false ∧ (allTargets games_and_targets).contains t
    then missing t else 0

/-- The `for target in &all_targets { if !found { *entry += 1 } }` step. -/
def missingAfterIncrement (games_and_targets : List (Nat × List Nat))
    (found_targets : List Nat) (missing : Nat → Nat) : Nat → Nat :=
  fun t =>
    if (allTargets games_and_targets).contains t ∧ found_targets.contains t = false
    then missingAfterRetain games_and_targets found_targets missing t + 1
    else missingAfterRetain games_and_targets found_targets missing t

/-- The `target_states().retain(...)` step of `target_states_cleanup`:
a state entry is kept iff its key is in `all_targets` and its
`missing_targets` entry is either vacant (count `0` here) or at most
`MISSING_TARGET_TOLERANCE`. -/
def target_states_cleanup_states (games_and_targets : List (Nat × List Nat))
    (found_targets : List Nat) (missing : Nat → Nat)
    (states : Nat → Option TargetState) : Nat → Option TargetState :=
  fun t =>
    match states t with
    | none => none
    | some s =>
      if (allTargets games_and_targets).contains t then
        let m := missingAfterIncrement games_and_targets found_targets missing t
        if m = 0 then some s
        else if m > MISSING_TARGET_TOLERANCE then none
        else some s
      else none

/-- The final `missing_targets` map: the retain step clears (via
`entry.remove()`) the counter of each key of `target_states` whose count
exceeded the tolerance. -/
def target_states_cleanup_missing (games_and_targets : List (Nat × List Nat))
    (found_targets : List Nat) (missing : Nat → Nat)
    (states : Nat → Option TargetState) : Nat → Nat :=
  fun t =>
    let m := missingAfterIncrement games_and_targets found_targets missing t
    if (states t).isSome ∧ (allTargets games_and_targets).contains t ∧
        m ≠ 0 ∧ m > MISSING_TARGET_TOLERANCE
    then 0 else m

/-! ## The cached store (`src/src/database.rs`)

Persistent tables and the caches of `Database`.  Rows carry only the fields
the claims inspect.  Database I/O fallibility is passed in as an explicit
`Except DbErr` oracle where the source performs a fallible call. -/

inductive DbErr where
  | err (code : Nat)
deriving Repr, DecidableEq

inductive ChannelDeleteError where
  | database (e : DbErr)
  | operationPending
deriving Repr, DecidableEq

inductive ChannelGetError where
  | database (e : DbErr)
  | notInitialized
deriving Repr, DecidableEq

inductive ChannelInitializeError where
  | database (e : DbErr)
  | alreadyInitialized
  | limitExceeded (count : Nat)
deriving Repr, DecidableEq

/-- The three persistent tables (`channel`, `game`, `target`).
`channels` holds `(channel_id, guild_id)` rows; `games` and `targets`
hold `(id, channel_id)` rows. -/
structure Tables where
  channels : List (Nat × Nat)
  games : List (Nat × Nat)
  targets : List (Nat × Nat)
deriving Repr, DecidableEq

/-- The in-memory side of `Database`: which channel ids are present in
`channel_cache`, the `guild_cache` (guild id → set of channel ids, for the
guilds that have an entry), and the `deleting` set. -/
structure DbState where
  tables : Tables
  channelCacheKeys : List Nat
  guildCache : List (Nat × List Nat)
  deleting : List Nat
deriving Repr, DecidableEq

/-- `Database::get_guild_channel_count` (lines 523-535): the size of the
`guild_cache` entry when present, otherwise a `COUNT` over the `channel`
table. -/
def get_guild_channel_count (st : DbState) (guild : Nat) : Nat :=
  match st.guildCache.lookup guild with
  | some cached => cached.length
  | none => (st.tables.channels.filter (fun row => row.2 = guild)).length

/-- `Database::initialize` (lines 462-492).  The insert uses
`ON CONFLICT DO NOTHING`; when the row already exists sea-orm reports
`DbErr::RecordNotInserted`, which `From<DbErr>` turns into
`AlreadyInitialized`, and the `?` skips the cache updates. -/
def channelInit (st : DbState) (channel guild : Nat) :
    Except ChannelInitializeError Unit × DbState :=
  let channel_count := get_guild_channel_count st guild
  if channel_count ≥ CHANNEL_LIMIT then
    (.error (.limitExceeded (channel_count + 1)), st)
  else if st.tables.channels.any (fun row => row.1 = channel) then
    (.error .alreadyInitialized, st)
  else
    let tables := { st.tables with channels := st.tables.channels ++ [(channel, guild)] }
    let guildCache := st.guildCache.map (fun e =>
      if e.1 = guild ∧ e.2.contains channel = false then (e.1, e.2 ++ [channel]) else e)
    let channelCacheKeys :=
      if st.channelCacheKeys.contains channel then st.channelCacheKeys
      else st.channelCacheKeys ++ [channel]
    (.ok (), { tables := tables, channelCacheKeys := channelCacheKeys,
               guildCache := guildCache, deleting := st.deleting })

/-- `Database::get_channel` (lines 536-554): fails `NotInitialized` while the
channel is in `deleting`; otherwise serves the cache, loading the row on a
miss (absence of a row is also `NotInitialized`). -/
def get_channel (st : DbState) (channel : Nat) :
    Except ChannelGetError Unit × DbState :=
  if st.deleting.contains channel then
    (.error .notInitialized, st)
  else if st.channelCacheKeys.contains channel then
    (.ok (), st)
  else if st.tables.channels.any (fun row => row.1 = channel) then
    (.ok (), { st with channelCacheKeys := st.channelCacheKeys ++ [channel] })
  else
    (.error .notInitialized, st)

/-- `Database::delete_channel` (lines 705-730).
`exclusive` is the outcome of `Arc::into_inner(channel)`: `false` when
another live holder of the cached record exists.  `dbRes` is the outcome of
the persistent `Channel::delete_by_id(...).exec(...)` call; on its error the
`?` operator returns from the function at once, so the final
`self.deleting.remove(&channel_id)` does not run on that path.  The
persistent delete cascades to the `game` and `target` tables
(`ON DELETE CASCADE` in the migration). -/
def delete_channel (st : DbState) (channel_id guild_id : Nat)
    (exclusive : Bool) (dbRes : Except DbErr Unit) :
    Except ChannelDeleteError Unit × DbState :=
  let st1 : DbState :=
    { st with
      deleting := if st.deleting.contains channel_id then st.deleting
                  else st.deleting ++ [channel_id]
      channelCacheKeys := st.channelCacheKeys.filter (fun c => c ≠ channel_id) }
  if exclusive then
    match dbRes with
    | .error e =>
      -- the `?` early return: `deleting` keeps the channel id
      (.error (.database e), st1)
    | .ok _ =>
      let tables : Tables :=
        { channels := st1.tables.channels.filter (fun row => row.1 ≠ channel_id)
          games := st1.tables.games.filter (fun row => row.2 ≠ channel_id)
          targets := st1.tables.targets.filter (fun row => row.2 ≠ channel_id) }
      let guildCache := st1.guildCache.map (fun e =>
        if e.1 = guild_id then (e.1, e.2.filter (fun c => c ≠ channel_id)) else e)
      (.ok (), { tables := tables
                 channelCacheKeys := st1.channelCacheKeys
                 guildCache := guildCache
                 deleting := st1.deleting.filter (fun c => c ≠ channel_id) })
  else
    (.error .operationPending,
     { st1 with deleting := st1.deleting.filter (fun c => c ≠ channel_id) })

/-! ## `InnerCachedChannel::add_targets` / `add_games`
(`src/src/database.rs` lines 255-310)

A cached channel's loaded membership set is modelled as a duplicate-free list
of ids; the persistent rows of the channel mirror it.  The batch insert uses
`ON CONFLICT DO NOTHING` and reports the number of rows actually inserted;
when zero, sea-orm's `RecordNotInserted` maps to `TargetsNotInserted` /
`GamesNotInserted`. -/

inductive TargetInsertError where
  | database (e : DbErr)
  | limitExceeded (count : Nat)
  | targetListEmpty
  | targetsNotInserted
deriving Repr, DecidableEq

inductive GameInsertError where
  | database (e : DbErr)
  | limitExceeded (count : Nat)
  | gameListEmpty
  | gamesNotInserted
deriving Repr, DecidableEq

/-- Batch insert with `ON CONFLICT DO NOTHING`: returns the number of rows
actually inserted and the resulting membership set. -/
def insertMany (current : List Nat) (ids : List Nat) : Nat × List Nat :=
  ids.foldl
    (fun acc id => if acc.2.contains id then acc else (acc.1 + 1, acc.2 ++ [id]))
    (0, current)

/-- `InnerCachedChannel::add_targets` (lines 255-283).  Note the source
compares the combined count against `GAME_LIMIT` (which has the same value,
100, as `TARGET_LIMIT`). -/
def add_targets (current : List Nat) (targets : List Nat) :
    Except TargetInsertError Nat × List Nat :=
  let target_count := current.length
  if target_count + targets.length > GAME_LIMIT then
    (.error (.limitExceeded (target_count + targets.length)), current)
  else if targets.isEmpty then
    (.error .targetListEmpty, current)
  else
    let res := insertMany current targets
    if res.1 ≠ 0 then (.ok res.1, res.2)
    else (.error .targetsNotInserted, current)

/-- `InnerCachedChannel::add_games` (lines 284-310). -/
def add_games (current : List Nat) (games : List Nat) :
    Except GameInsertError Nat × List Nat :=
  let game_count := current.length
  if game_count + games.length > GAME_LIMIT then
    (.error (.limitExceeded (game_count + games.length)), current)
  else if games.isEmpty then
    (.error .gameListEmpty, current)
  else
    let res := insertMany current games
    if res.1 ≠ 0 then (.ok res.1, res.2)
    else (.error .gamesNotInserted, current)

/-! ## Retry policies

`src/src/retry_strategies.rs` defines the named fibonacci policies; the
`roblox` module (`src/src/roblox.rs` lines 52-70) defines its own private
constant-delay builders, and `get_servers` in `src/src/roblox/tracking.rs`
(lines 33-54) retries each page fetch with the latter
(`use super::retry_strategy`).  A backoff builder is modelled by its shape
and parameters (delays in milliseconds). -/

inductive RetryPolicy where
  /-- backon's `ConstantBuilder` with a fixed delay and a max attempt count -/
  | constant (delay : Nat) (maxTimes : Nat)
  /-- backon's `FibonacciBuilder` with jitter flag, min/max delay, max attempts -/
  | fibonacci (jitter : Bool) (minDelay maxDelay : Nat) (maxTimes : Nat)
deriving Repr, DecidableEq

/-- `roblox_retry_strategy` from `src/src/retry_strategies.rs` (lines 7-15):
fibonacci, jittered, min 100 ms, max 3000 ms, up to 15 attempts. -/
def roblox_retry_strategy : RetryPolicy := .fibonacci true 100 3000 15

/-- `discord_retry_strategy` from `src/src/retry_strategies.rs`
(lines 31-39). -/
def discord_retry_strategy : RetryPolicy := .fibonacci true 100 500 5

/-- `retry_strategy` from `src/src/roblox.rs` (lines 52-60): a
`ConstantBuilder` with delay `RETRY_DELAY` and `MAX_RETRY_ATTEMPTS` attempts.
Those two constants are imported from `crate::constants` but are not defined
in `src/src/constants.rs` (the crate as given does not compile), so they are
left as parameters here. -/
def rbx_retry_strategy (RETRY_DELAY MAX_RETRY_ATTEMPTS : Nat) : RetryPolicy :=
  .constant RETRY_DELAY MAX_RETRY_ATTEMPTS

/-- The retry policy `get_servers` (`src/src/roblox/tracking.rs` lines 33-54)
passes to `.retry(...)` for every public-server page fetch: it resolves to
`crate::roblox::retry_strategy`, the constant-delay builder. -/
def get_servers_retry_policy (RETRY_DELAY MAX_RETRY_ATTEMPTS : Nat) : RetryPolicy :=
  rbx_retry_strategy RETRY_DELAY MAX_RETRY_ATTEMPTS

/-- The upstream API error type `Error<JsonError>` as far as the retry
predicate inspects it: rate-limit errors, transport (`Request`) errors, and
everything else (typed semantic errors). -/
inductive ApiError where
  | rateLimit
  | request
  | semantic
deriving Repr, DecidableEq

/-- `api_error_retryable` from `src/src/roblox/tracking.rs` (lines 56-58):
`matches!(*err, Error::RateLimit | Error::Request(_))`. -/
def api_error_retryable (err : ApiError) : Bool :=
  match err with
  | .rateLimit => true
  | .request => true
  | .semantic => false

/-- Discriminator: is this retry policy a `FibonacciBuilder`? -/
def RetryPolicy.isFibonacci : RetryPolicy → Bool
  | .fibonacci _ _ _ _ => true
  | .constant _ _ => false

/-- Discriminator: does an `add_targets` result report `LimitExceeded`? -/
def reportsTargetLimit : Except TargetInsertError Nat → Bool
  | .error (.limitExceeded _) => true
  | _ => false

/-! ## The renderer (`src/src/message_utils.rs` lines 113-185)

`render_lines_message(content, lines, title)` builds a Discord message: some
content text plus one or two embeds.  Only the embed descriptions and the
content are modelled (colours and the embed title field play no role in the
claims; the title's length enters `remaining_chars`).  Rust strings are
compared by byte length; test inputs are ASCII so `String.length` agrees. -/

/-- `lines.iter().fold(0, |total_chars, s| total_chars + s.len())`. -/
def sumLens (l : List String) : Nat :=
  l.foldl (fun total s => total + s.length) 0

/-- The `while total_chars > remaining_chars { lines.pop(); }` loop: starting
from the by-length ascending list, repeatedly drop the last (longest) line
until the total length fits. -/
def trimToFit (l : List String) (remaining : Nat) : List String :=
  if h : sumLens l ≤ remaining then l
  else
    have hne : l ≠ [] := by
      intro he
      subst he
      simp [sumLens] at h
    trimToFit l.dropLast remaining
termination_by l.length
decreasing_by
  simp only [List.length_dropLast]
  exact Nat.sub_lt (List.length_pos.mpr hne) Nat.one_pos

/-- The `lines.retain(...)` loop of the two-embed branch: walk the lines in
order; while `half_lines > 0` and the line still fits the first description,
move it into the first description and keep it in the list, otherwise remove
it.  Returns (retained lines, first description, leftover `half_lines`). -/
def splitGo (lines : List String) (half_lines : Nat) (first_description : String) :
    List String × String × Nat :=
  match lines with
  | [] => ([], first_description, half_lines)
  | l :: ls =>
    if half_lines > 0 ∧ first_description.length + l.length ≤ DESCRIPTION_MAX_LENGTH + 1 then
      let r := splitGo ls (half_lines - 1) (first_description ++ l)
      (l :: r.1, r.2.1, r.2.2)
    else
      splitGo ls half_lines first_description

/-- The message built by the renderer: the content line and the list of
embed descriptions (one or two). -/
structure RenderedMessage where
  content : String
  embeds : List String
deriving Repr, DecidableEq

/-- `render_lines_message` from `src/src/message_utils.rs` (lines 113-185).
The `usize` subtraction `EMBED_MAX_LENGTH - title_len` is truncating here
(`Nat` subtraction); the source would panic on a title longer than 6000
characters, a case no claim touches. -/
def render_lines_message (content : String) (lines : List String)
    (title : Option String) : RenderedMessage :=
  let titleLen := match title with
    | some t => t.length
    | none => 1
  let remaining_chars := EMBED_MAX_LENGTH - titleLen + 2
  let lines1 := lines.map (fun s => s ++ "\n")
  let kept0 := lines1.filter (fun s => s.length ≤ DESCRIPTION_MAX_LENGTH + 1)
  let lines_dropped := lines1.length - kept0.length
  let sorted := kept0.mergeSort (fun a b => a.length ≤ b.length)
  let kept := trimToFit sorted remaining_chars
  let chars_dropped := sumLens sorted - sumLens kept
  if sumLens kept ≤ 4097 then
    let description := (String.join kept).dropRight 1
    { content := content, embeds := [description] }
  else
    let r := splitGo kept ((kept.length + 1) / 2) ""
    let first0 := r.2.1.dropRight 1
    let second0 := (String.join r.1).dropRight 1
    let first_description := if r.2.2 > 0 then second0 else first0
    let second_description := if r.2.2 > 0 then first0 else second0
    { content :=
        if lines_dropped > 0 then
          content ++ "\n" ++ "This output has been truncated by " ++
            toString lines_dropped ++ " lines (" ++ toString chars_dropped ++
            " characters) because of Discord limits."
        else content
      embeds := [first_description, second_description] }

/-! ## Theorems -/

/-- **C4.** For every pair of optional target states `(old, current)`: the
update loop's difference predicate is true iff the pair is not `(None, None)`
and it is not the case that both states are present with the same server; and
its ping predicate is true iff `current` is present and either `old` is
absent or `old.server` differs from `current.server`. -/
theorem C4_different_and_ping (old current : Option TargetState) :
    (is_different_states old current = true ↔
      ¬(old = none ∧ current = none) ∧
      ¬∃ o c, old = some o ∧ current = some c ∧ o.server = c.server)
    ∧ (is_ping_states old current = true ↔
      ∃ c, current = some c ∧
        (old = none ∨ ∃ o, old = some o ∧ o.server ≠ c.server)) := by
  cases old <;> cases current <;>
    simp [is_different_states, is_ping_states, bne_iff_ne, beq_iff_eq] <;>
    tauto

lemma should_delete_tracker_iff (gU gC : Bool) (err : SerenityError) :
    should_delete_tracker gU gC err = true ↔
    err = .http 10003 ∨ (err = .http 50001 ∧ gU = false ∧ gC = false) := by
  cases err with
  | http code =>
    simp only [should_delete_tracker]
    split <;> simp_all
  | other => simp [should_delete_tracker]

lemma should_send_message_iff (err : SerenityError) :
    should_send_message err = true ↔ err = .http 10008 ∨ err = .http 50005 := by
  cases err with
  | http code =>
    simp only [should_send_message]
    split <;> simp_all
  | other => simp [should_send_message]

/-- The `should_delete` flag of `send_output`, extracted. -/
def deleteFlag (message_id : Option Nat) (editRes : Except SerenityError Unit)
    (gU gC : Bool) : Bool :=
  match message_id, editRes with
  | some _, .error err => should_delete_tracker gU gC err
  | _, _ => false

/-- The `should_send` flag of `send_output`, extracted. -/
def sendFlag (message_id : Option Nat) (editRes : Except SerenityError Unit) : Bool :=
  match message_id, editRes with
  | some _, .error err => should_send_message err
  | _, _ => false

lemma send_output_deleteAttempted (message_id : Option Nat)
    (editRes : Except SerenityError Unit) (gU gC : Bool)
    (sendRes : Except SerenityError Nat) (chOk : Bool) :
    (send_output message_id editRes gU gC sendRes chOk).deleteAttempted =
      deleteFlag message_id editRes gU gC := by
  cases message_id <;> cases editRes <;>
    simp only [send_output, deleteFlag] <;>
    split <;> simp_all <;> split <;> simp_all

lemma send_output_sendAttempted (message_id : Option Nat)
    (editRes : Except SerenityError Unit) (gU gC : Bool)
    (sendRes : Except SerenityError Nat) (chOk : Bool) :
    (send_output message_id editRes gU gC sendRes chOk).sendAttempted =
      (!deleteFlag message_id editRes gU gC &&
        (sendFlag message_id editRes || message_id.isNone)) := by
  cases message_id <;> cases editRes <;>
    simp only [send_output, deleteFlag, sendFlag] <;>
    split <;> simp_all <;> split <;> simp_all

lemma send_output_messageStored (message_id : Option Nat)
    (editRes : Except SerenityError Unit) (gU gC : Bool)
    (sendRes : Except SerenityError Nat) (chOk : Bool) :
    (send_output message_id editRes gU gC sendRes chOk).messageStored =
      (if (send_output message_id editRes gU gC sendRes chOk).sendAttempted then
        match sendRes with
        | .ok mid => if chOk then some mid else none
        | .error _ => none
      else none) := by
  cases message_id <;> cases editRes <;>
    simp only [send_output] <;>
    split <;> simp_all <;> split <;> simp_all

/-- **C3.** In the send/edit state machine: the edit call retries on every
error except codes 10003, 10008, 50005 and 50001; after a failed edit, the
tracker channel deletion is performed exactly when the code is 10003, or is
50001 with the guild neither cached nor marked unavailable; a new message is
sent exactly when the code is 10008 or 50005, or when there was no prior
`message_id`; the send call retries on every error except 10003 and 50001;
and the new message id is stored via `set_message` exactly on a successful
send (best-effort: only when the channel can still be fetched). -/
theorem C3_send_edit_machine (e : SerenityError) (message_id : Option Nat)
    (editRes : Except SerenityError Unit) (gU gC : Bool)
    (sendRes : Except SerenityError Nat) (chOk : Bool) :
    (should_retry_edit e = false ↔
      e = .http 10003 ∨ e = .http 10008 ∨ e = .http 50005 ∨ e = .http 50001)
    ∧ (should_retry_send e = false ↔ e = .http 10003 ∨ e = .http 50001)
    ∧ ((send_output message_id editRes gU gC sendRes chOk).deleteAttempted = true ↔
      message_id.isSome ∧ ∃ err, editRes = .error err ∧
        (err = .http 10003 ∨ (err = .http 50001 ∧ gU = false ∧ gC = false)))
    ∧ ((send_output message_id editRes gU gC sendRes chOk).sendAttempted = true ↔
      message_id = none ∨ (message_id.isSome ∧ ∃ err, editRes = .error err ∧
        (err = .http 10008 ∨ err = .http 50005)))
    ∧ (∀ m, (send_output message_id editRes gU gC sendRes chOk).messageStored = some m ↔
      (send_output message_id editRes gU gC sendRes chOk).sendAttempted = true ∧
        sendRes = .ok m ∧ chOk = true) := by
  refine ⟨?_, ?_, ?_, ?_, ?_⟩
  · cases e with
    | http code =>
      simp only [should_retry_edit]
      split
      · rename_i h
        simp [h]
      · rename_i h
        simp
        omega
    | other => simp [should_retry_edit]
  · cases e with
    | http code =>
      simp only [should_retry_send]
      split
      · rename_i h
        simp [h]
      · rename_i h
        simp
        omega
    | other => simp [should_retry_send]
  · rw [send_output_deleteAttempted]
    cases message_id <;> cases editRes <;>
      simp [deleteFlag, should_delete_tracker_iff]
  · rw [send_output_sendAttempted]
    cases message_id <;> cases editRes <;>
      simp [deleteFlag, sendFlag, should_send_message_iff]
    rename_i err
    intro h
    rcases h with h | h <;> subst h <;> simp [should_delete_tracker]
  · intro m
    rw [send_output_messageStored]
    cases sendRes <;> cases chOk <;>
      split <;> simp_all

/-- **C1.** For every call to `delete_channel(c)` that observes another live
holder of the cached channel record (`Arc::into_inner` fails), the call
returns `OperationPending`, the persistent channel/game/target tables are
left unchanged, and `c` is removed from the `deleting` set before
returning, so a later retry of the delete can succeed. -/
theorem C1_delete_pending (st : DbState) (channel_id guild_id : Nat)
    (dbRes : Except DbErr Unit) :
    (delete_channel st channel_id guild_id false dbRes).1 =
      .error .operationPending
    ∧ (delete_channel st channel_id guild_id false dbRes).2.tables = st.tables
    ∧ (delete_channel st channel_id guild_id false dbRes).2.deleting.contains
        channel_id = false := by
  refine ⟨rfl, rfl, ?_⟩
  simp [delete_channel, List.contains, List.elem_eq_mem, List.mem_filter]

/-- **C2.** At the end of every tracking cycle, every target `t` kept in
`target_states` is contained in that cycle's `all_targets` set and was either
found this cycle or has a missing counter of at most
`MISSING_TARGET_TOLERANCE = 3`; the counter is incremented each cycle `t` is
in `all_targets` but not found (unless that increment pushes a tracked
target past the tolerance, in which case its state entry is evicted and the
counter cleared), is reset when `t` is found, and a tracked target's state
entry is evicted exactly when its incremented counter exceeds the
tolerance. -/
theorem C2_target_states_cleanup (gat : List (Nat × List Nat))
    (found : List Nat) (missing : Nat → Nat)
    (states : Nat → Option TargetState) (t : Nat) :
    ((target_states_cleanup_states gat found missing states t).isSome = true →
      (allTargets gat).contains t = true ∧
      (found.contains t = true ∨
        target_states_cleanup_missing gat found missing states t ≤
          MISSING_TARGET_TOLERANCE))
    ∧ (found.contains t = true →
      target_states_cleanup_missing gat found missing states t = 0)
    ∧ ((allTargets gat).contains t = true → found.contains t = false →
      target_states_cleanup_missing gat found missing states t = missing t + 1
      ∨ ((states t).isSome = true ∧
         target_states_cleanup_states gat found missing states t = none ∧
         target_states_cleanup_missing gat found missing states t = 0))
    ∧ ((states t).isSome = true → (allTargets gat).contains t = true →
      (target_states_cleanup_states gat found missing states t = none ↔
        missingAfterIncrement gat found missing t > MISSING_TARGET_TOLERANCE)) := by
  cases hf : found.contains t <;> cases ha : (allTargets gat).contains t <;>
    cases hs : states t <;>
    simp [target_states_cleanup_states, target_states_cleanup_missing,
      missingAfterIncrement, missingAfterRetain, hf, ha, hs,
      MISSING_TARGET_TOLERANCE] <;>
    split_ifs <;> simp_all <;> omega

/-- Witness for `C2_target_states_cleanup` on a concrete cycle: one game
with targets 5, 7, 9; target 5 found, target 7 missing for 3 prior cycles
(now evicted), target 9 freshly missing (counter becomes 1, state kept). -/
theorem C2_target_states_cleanup_witness :
    target_states_cleanup_missing [(1, [5, 7, 9])] [5]
      (fun t => if t = 7 then 3 else 0)
      (fun t => if t = 7 ∨ t = 9 then some ⟨1, 2⟩ else none) 5 = 0
    ∧ (target_states_cleanup_missing [(1, [5, 7, 9])] [5]
        (fun t => if t = 7 then 3 else 0)
        (fun t => if t = 7 ∨ t = 9 then some ⟨1, 2⟩ else none) 9 =
          (fun t : Nat => if t = 7 then 3 else 0) 9 + 1
      ∨ (((fun t => if t = 7 ∨ t = 9 then some (⟨1, 2⟩ : TargetState) else none) 9).isSome = true
        ∧ target_states_cleanup_states [(1, [5, 7, 9])] [5]
            (fun t => if t = 7 then 3 else 0)
            (fun t => if t = 7 ∨ t = 9 then some ⟨1, 2⟩ else none) 9 = none
        ∧ target_states_cleanup_missing [(1, [5, 7, 9])] [5]
            (fun t => if t = 7 then 3 else 0)
            (fun t => if t = 7 ∨ t = 9 then some ⟨1, 2⟩ else none) 9 = 0))
    ∧ (target_states_cleanup_states [(1, [5, 7, 9])] [5]
        (fun t => if t = 7 then 3 else 0)
        (fun t => if t = 7 ∨ t = 9 then some ⟨1, 2⟩ else none) 7 = none ↔
      missingAfterIncrement [(1, [5, 7, 9])] [5]
        (fun t => if t = 7 then 3 else 0) 7 > MISSING_TARGET_TOLERANCE)
    ∧ ((allTargets [(1, [5, 7, 9])]).contains 9 = true
      ∧ ([5].contains 9 = true
        ∨ target_states_cleanup_missing [(1, [5, 7, 9])] [5]
            (fun t => if t = 7 then 3 else 0)
            (fun t => if t = 7 ∨ t = 9 then some ⟨1, 2⟩ else none) 9 ≤
          MISSING_TARGET_TOLERANCE)) :=
  ⟨(C2_target_states_cleanup [(1, [5, 7, 9])] [5]
      (fun t => if t = 7 then 3 else 0)
      (fun t => if t = 7 ∨ t = 9 then some ⟨1, 2⟩ else none) 5).2.1 (by decide),
   (C2_target_states_cleanup [(1, [5, 7, 9])] [5]
      (fun t => if t = 7 then 3 else 0)
      (fun t => if t = 7 ∨ t = 9 then some ⟨1, 2⟩ else none) 9).2.2.1
      (by decide) (by decide),
   (C2_target_states_cleanup [(1, [5, 7, 9])] [5]
      (fun t => if t = 7 then 3 else 0)
      (fun t => if t = 7 ∨ t = 9 then some ⟨1, 2⟩ else none) 7).2.2.2
      (by decide) (by decide),
   (C2_target_states_cleanup [(1, [5, 7, 9])] [5]
      (fun t => if t = 7 then 3 else 0)
      (fun t => if t = 7 ∨ t = 9 then some ⟨1, 2⟩ else none) 9).1 (by decide)⟩

/-- **C5.** `add_targets` enforces `current + new ≤ TARGET_LIMIT`: whenever
the channel's current target count `n` plus the input size `k` exceeds
`TARGET_LIMIT`, the call returns `LimitExceeded(n + k)` and leaves the store
unchanged; and when `n + k` is within the limit no `LimitExceeded` error is
possible.  (The source compares against `GAME_LIMIT`, whose value equals
`TARGET_LIMIT = 100`, so the enforced limit is `TARGET_LIMIT`.) -/
theorem C5_add_targets_limit (current targets : List Nat) :
    (current.length + targets.length > TARGET_LIMIT →
      add_targets current targets =
        (.error (.limitExceeded (current.length + targets.length)), current))
    ∧ (current.length + targets.length ≤ TARGET_LIMIT →
      reportsTargetLimit (add_targets current targets).1 = false) := by
  constructor
  · intro h
    simp only [add_targets]
    rw [if_pos]
    exact h
  · intro h
    simp only [add_targets]
    rw [if_neg (by simpa [TARGET_LIMIT, GAME_LIMIT] using h)]
    split
    · rfl
    · split <;> rfl

/-- Witness for `C5_add_targets_limit`: a channel holding targets
`0..99` rejects one further target with `LimitExceeded(101)`, and a call
within the limit never reports `LimitExceeded`. -/
theorem C5_add_targets_limit_witness :
    add_targets (List.range 100) [200] =
      (.error (.limitExceeded ((List.range 100).length + [200].length)),
        List.range 100)
    ∧ reportsTargetLimit (add_targets [7] [8]).1 = false :=
  ⟨(C5_add_targets_limit (List.range 100) [200]).1 (by decide),
   (C5_add_targets_limit [7] [8]).2 (by decide)⟩

lemma insertMany_all_mem (cur : List Nat) (ids : List Nat)
    (h : ∀ g ∈ ids, g ∈ cur) : insertMany cur ids = (0, cur) := by
  have key : ∀ (l : List Nat) (acc : Nat × List Nat), (∀ g ∈ l, g ∈ acc.2) →
      l.foldl (fun acc id =>
        if acc.2.contains id then acc else (acc.1 + 1, acc.2 ++ [id])) acc = acc := by
    intro l
    induction l with
    | nil => intro acc _; rfl
    | cons x xs ih =>
      intro acc hacc
      have hx : acc.2.contains x = true := by
        simpa using hacc x (by simp)
      simp only [List.foldl_cons, hx, if_pos]
      exact ih acc fun g hg => hacc g (by simp [hg])
  exact key ids (0, cur) h

/-- **C7 (counterexample).** The claim says an input consisting solely of
games already present in the channel returns `GamesNotInserted`; but the
limit check runs first, so a duplicate-only input on a full channel (100
games, re-adding game 0) returns `LimitExceeded(101)` instead. -/
theorem C7_add_games_counterexample :
    (∀ g ∈ [0], g ∈ List.range 100)
    ∧ (add_games (List.range 100) [0]).1 = .error (.limitExceeded 101)
    ∧ (add_games (List.range 100) [0]).1 ≠ .error .gamesNotInserted := by
  refine ⟨by decide, rfl, ?_⟩
  intro h
  rw [show (add_games (List.range 100) [0]).1 =
    .error (.limitExceeded 101) from rfl] at h
  simp at h

/-- **C7 (amended).** `add_games` boundary behaviour, with the limit check
taken into account: on a channel within the game limit, an empty input
returns `GameListEmpty` without touching the store; an input consisting
solely of games already present returns `GamesNotInserted` with zero rows
inserted *provided* `current + new ≤ GAME_LIMIT` (otherwise the limit check
fires first); and adding `GAME_LIMIT + 1` games to a channel with no games
returns `LimitExceeded(GAME_LIMIT + 1)`. -/
theorem C7_add_games_boundaries (current games : List Nat) :
    (current.length ≤ GAME_LIMIT → games = [] →
      add_games current games = (.error .gameListEmpty, current))
    ∧ (games ≠ [] → (∀ g ∈ games, g ∈ current) →
      current.length + games.length ≤ GAME_LIMIT →
      add_games current games = (.error .gamesNotInserted, current))
    ∧ (current = [] → games.length = GAME_LIMIT + 1 →
      add_games current games =
        (.error (.limitExceeded (GAME_LIMIT + 1)), current)) := by
  refine ⟨?_, ?_, ?_⟩
  · intro hlen hnil
    subst hnil
    simp only [add_games]
    rw [if_neg (by simpa using hlen)]
    simp
  · intro hne hmem hlen
    simp only [add_games]
    rw [if_neg (by omega)]
    rw [if_neg (by simpa [List.isEmpty_iff] using hne)]
    rw [insertMany_all_mem current games hmem]
    simp
  · intro hcur hlen
    subst hcur
    simp only [add_games]
    rw [if_pos (by simpa using by omega)]
    simp [hlen]

/-- Witness for `C7_add_games_boundaries` at concrete channels: empty input
on a two-game channel, the duplicate `[5]` on channel `[5]`, and 101 fresh
games on an empty channel. -/
theorem C7_add_games_boundaries_witness :
    add_games [1, 2] [] = (.error .gameListEmpty, [1, 2])
    ∧ add_games [5] [5] = (.error .gamesNotInserted, [5])
    ∧ add_games [] (List.range 101) =
        (.error (.limitExceeded (GAME_LIMIT + 1)), []) :=
  ⟨(C7_add_games_boundaries [1, 2] []).1 (by decide) rfl,
   (C7_add_games_boundaries [5] [5]).2.1 (by decide) (by decide) (by decide),
   (C7_add_games_boundaries [] (List.range 101)).2.2 rfl (by decide)⟩

/-- **C6 (counterexample).** The claim says `initialize` fails
`AlreadyInitialized` when the channel row already existed; but the guild
limit is checked first, so re-initializing an existing channel in a guild
that is at `CHANNEL_LIMIT` returns `LimitExceeded(6)` instead. -/
theorem C6_channel_init_counterexample :
    ({ channels := [(1, 9), (2, 9), (3, 9), (4, 9), (5, 9)], games := [],
       targets := [] } : Tables).channels.any (fun row => row.1 = 1) = true
    ∧ (channelInit
        { tables := { channels := [(1, 9), (2, 9), (3, 9), (4, 9), (5, 9)],
                      games := [], targets := [] },
          channelCacheKeys := [], guildCache := [], deleting := [] } 1 9).1 =
      .error (.limitExceeded 6)
    ∧ (channelInit
        { tables := { channels := [(1, 9), (2, 9), (3, 9), (4, 9), (5, 9)],
                      games := [], targets := [] },
          channelCacheKeys := [], guildCache := [], deleting := [] } 1 9).1 ≠
      .error .alreadyInitialized := by
  refine ⟨by decide, rfl, ?_⟩
  intro h
  rw [show (channelInit
      { tables := { channels := [(1, 9), (2, 9), (3, 9), (4, 9), (5, 9)],
                    games := [], targets := [] },
        channelCacheKeys := [], guildCache := [], deleting := [] } 1 9).1 =
    .error (.limitExceeded 6) from rfl] at h
  simp at h

lemma lookup_mem {β : Type} (l : List (Nat × β)) (k : Nat) (v : β)
    (h : l.lookup k = some v) : (k, v) ∈ l := by
  induction l with
  | nil => simp [List.lookup] at h
  | cons e t ih =>
    obtain ⟨a, b⟩ := e
    rw [List.lookup] at h
    by_cases hk : k = a
    · subst hk
      simp at h
      simp [h]
    · have hb : (k == a) = false := by simpa using hk
      rw [hb] at h
      exact List.mem_cons_of_mem _ (ih h)

/-- **C6 (amended).** `initialize(channel, guild)`: when the guild already
has `CHANNEL_LIMIT` or more channels, it fails `LimitExceeded(count + 1)`
without inserting a row (this check runs first, even if the row already
existed); when the guild is under the limit and the channel row already
existed, it fails `AlreadyInitialized` and changes nothing; and — assuming
the guild cache entries agree with the channel table — every accepted
`initialize` leaves the guild with at most `CHANNEL_LIMIT` channels. -/
theorem C6_channel_init (st : DbState) (channel guild : Nat) :
    (get_guild_channel_count st guild ≥ CHANNEL_LIMIT →
      channelInit st channel guild =
        (.error (.limitExceeded (get_guild_channel_count st guild + 1)), st))
    ∧ (get_guild_channel_count st guild < CHANNEL_LIMIT →
      st.tables.channels.any (fun row => row.1 = channel) = true →
      channelInit st channel guild = (.error .alreadyInitialized, st))
    ∧ ((∀ e ∈ st.guildCache,
        e.2.length = (st.tables.channels.filter (fun r => r.2 = e.1)).length) →
      (channelInit st channel guild).1 = .ok () →
      ((channelInit st channel guild).2.tables.channels.filter
          (fun r => r.2 = guild)).length ≤ CHANNEL_LIMIT) := by
  refine ⟨?_, ?_, ?_⟩
  · intro h
    simp only [channelInit]
    rw [if_pos h]
  · intro hlt hrow
    simp only [channelInit]
    rw [if_neg (by omega), if_pos hrow]
  · intro hcoh hok
    have hcount : get_guild_channel_count st guild =
        (st.tables.channels.filter (fun r => r.2 = guild)).length := by
      simp only [get_guild_channel_count]
      cases hl : st.guildCache.lookup guild with
      | none => rfl
      | some cached =>
        simpa using hcoh (guild, cached) (lookup_mem _ _ _ hl)
    by_cases h1 : get_guild_channel_count st guild ≥ CHANNEL_LIMIT
    · rw [show channelInit st channel guild =
        (.error (.limitExceeded (get_guild_channel_count st guild + 1)), st) by
          simp only [channelInit]; rw [if_pos h1]] at hok
      simp at hok
    · by_cases h2 : st.tables.channels.any (fun row => row.1 = channel) = true
      · rw [show channelInit st channel guild = (.error .alreadyInitialized, st) by
          simp only [channelInit]; rw [if_neg h1, if_pos h2]] at hok
        simp at hok
      · have hres : (channelInit st channel guild).2.tables.channels =
            st.tables.channels ++ [(channel, guild)] := by
          simp only [channelInit]
          rw [if_neg h1, if_neg h2]
        rw [hres]
        simp only [List.filter_append]
        simp only [List.length_append]
        have : (List.filter (fun r => decide (r.2 = guild))
            [(channel, guild)]).length = 1 := by simp
        rw [this]
        rw [hcount] at h1
        simp only [CHANNEL_LIMIT] at h1 ⊢
        omega

/-- Witness for `C6_channel_init`: a full guild rejects a sixth channel, an
existing channel in an under-limit guild reports `AlreadyInitialized`, and
an accepted initialize on a one-channel guild yields two ≤ 5 channels. -/
theorem C6_channel_init_witness :
    channelInit
      { tables := { channels := [(1, 9), (2, 9), (3, 9), (4, 9), (5, 9)],
                    games := [], targets := [] },
        channelCacheKeys := [], guildCache := [], deleting := [] } 7 9 =
      (.error (.limitExceeded
        (get_guild_channel_count
          { tables := { channels := [(1, 9), (2, 9), (3, 9), (4, 9), (5, 9)],
                        games := [], targets := [] },
            channelCacheKeys := [], guildCache := [], deleting := [] } 9 + 1)),
       { tables := { channels := [(1, 9), (2, 9), (3, 9), (4, 9), (5, 9)],
                     games := [], targets := [] },
         channelCacheKeys := [], guildCache := [], deleting := [] })
    ∧ channelInit
        { tables := { channels := [(1, 9)], games := [], targets := [] },
          channelCacheKeys := [], guildCache := [], deleting := [] } 1 9 =
      (.error .alreadyInitialized,
       { tables := { channels := [(1, 9)], games := [], targets := [] },
         channelCacheKeys := [], guildCache := [], deleting := [] })
    ∧ ((channelInit
        { tables := { channels := [(1, 9)], games := [], targets := [] },
          channelCacheKeys := [], guildCache := [], deleting := [] } 2 9).2.tables.channels.filter
          (fun r => r.2 = 9)).length ≤ CHANNEL_LIMIT :=
  ⟨(C6_channel_init
      { tables := { channels := [(1, 9), (2, 9), (3, 9), (4, 9), (5, 9)],
                    games := [], targets := [] },
        channelCacheKeys := [], guildCache := [], deleting := [] } 7 9).1
      (by decide),
   (C6_channel_init
      { tables := { channels := [(1, 9)], games := [], targets := [] },
        channelCacheKeys := [], guildCache := [], deleting := [] } 1 9).2.1
      (by decide) (by decide),
   (C6_channel_init
      { tables := { channels := [(1, 9)], games := [], targets := [] },
        channelCacheKeys := [], guildCache := [], deleting := [] } 2 9).2.2
      (by decide) rfl⟩

/-- **C10 (counterexample).** The claim says every `delete_channel` call
removes the channel id from the `deleting` set before returning, for every
outcome including a database error; but on a database error during the
persistent delete the `?` operator returns early, skipping the removal: the
id stays in `deleting`, and `get_channel` then fails `NotInitialized` even
though the channel row is still present. -/
theorem C10_delete_channel_counterexample :
    1 ∈ (delete_channel
      { tables := { channels := [(1, 9)], games := [], targets := [] },
        channelCacheKeys := [1], guildCache := [], deleting := [] }
      1 9 true (.error (.err 0))).2.deleting
    ∧ (delete_channel
      { tables := { channels := [(1, 9)], games := [], targets := [] },
        channelCacheKeys := [1], guildCache := [], deleting := [] }
      1 9 true (.error (.err 0))).1 = .error (.database (.err 0))
    ∧ (get_channel (delete_channel
      { tables := { channels := [(1, 9)], games := [], targets := [] },
        channelCacheKeys := [1], guildCache := [], deleting := [] }
      1 9 true (.error (.err 0))).2 1).1 = .error .notInitialized
    ∧ 1 ∈ ((delete_channel
      { tables := { channels := [(1, 9)], games := [], targets := [] },
        channelCacheKeys := [1], guildCache := [], deleting := [] }
      1 9 true (.error (.err 0))).2.tables.channels.map Prod.fst) := by
  exact ⟨by decide, rfl, rfl, by decide⟩

/-- **C10 (amended).** `delete_channel` removes the channel id from the
`deleting` set before returning on the success and `OperationPending`
outcomes; only the database-error path of the persistent delete returns
early and leaves the id in the set. -/
theorem C10_deleting_unmarked (st : DbState) (channel_id guild_id : Nat)
    (exclusive : Bool) (dbRes : Except DbErr Unit)
    (h : exclusive = false ∨ dbRes = .ok ()) :
    (delete_channel st channel_id guild_id exclusive dbRes).2.deleting.contains
      channel_id = false := by
  rcases h with h | h
  · subst h
    simp [delete_channel, List.contains, List.elem_eq_mem, List.mem_filter]
  · subst h
    cases exclusive <;>
      simp [delete_channel, List.contains, List.elem_eq_mem, List.mem_filter]

/-- Witness for `C10_deleting_unmarked`: both the pending outcome and the
successful outcome leave channel 1 out of `deleting`. -/
theorem C10_deleting_unmarked_witness :
    (delete_channel
      { tables := { channels := [(1, 9)], games := [], targets := [] },
        channelCacheKeys := [1], guildCache := [], deleting := [] }
      1 9 false (.ok ())).2.deleting.contains 1 = false
    ∧ (delete_channel
      { tables := { channels := [(1, 9)], games := [], targets := [] },
        channelCacheKeys := [1], guildCache := [], deleting := [] }
      1 9 true (.ok ())).2.deleting.contains 1 = false :=
  ⟨C10_deleting_unmarked
      { tables := { channels := [(1, 9)], games := [], targets := [] },
        channelCacheKeys := [1], guildCache := [], deleting := [] }
      1 9 false (.ok ()) (Or.inl rfl),
   C10_deleting_unmarked
      { tables := { channels := [(1, 9)], games := [], targets := [] },
        channelCacheKeys := [1], guildCache := [], deleting := [] }
      1 9 true (.ok ()) (Or.inr rfl)⟩

/-- **C8.** The claim says the tracking loop's public-server pagination
retries each page fetch with the fibonacci "roblox" policy (jittered, min
100 ms, max 3000 ms, 15 attempts).  That policy does exist verbatim as
`retry_strategies::roblox_retry_strategy`, and the retry predicate does
accept exactly rate-limit and transport errors — but `get_servers` resolves
its `.retry(retry_strategy())` call to `crate::roblox::retry_strategy`, a
constant-delay `ConstantBuilder`, whatever the values of its (missing)
constants: the policy used is never the fibonacci one. -/
theorem C8_pagination_retry_policy (RETRY_DELAY MAX_RETRY_ATTEMPTS : Nat) :
    (get_servers_retry_policy RETRY_DELAY MAX_RETRY_ATTEMPTS).isFibonacci = false
    ∧ roblox_retry_strategy = .fibonacci true 100 3000 15
    ∧ roblox_retry_strategy.isFibonacci = true
    ∧ ∀ err, api_error_retryable err = true ↔
        err = .rateLimit ∨ err = .request := by
  refine ⟨rfl, rfl, rfl, ?_⟩
  intro err
  cases err <;> simp [api_error_retryable]

lemma foldl_append_shift (t : List String) : ∀ (s : String),
    t.foldl (fun r x => r ++ x) s = s ++ t.foldl (fun r x => r ++ x) "" := by
  induction t with
  | nil =>
    intro s
    simp
  | cons x xs ih =>
    intro s
    simp only [List.foldl_cons]
    rw [ih (s ++ x), ih (("" : String) ++ x)]
    simp [String.append_assoc]

lemma splitGo_first_eq_join (lines : List String) :
    ∀ (half : Nat) (f : String),
      (splitGo lines half f).2.1 = f ++ String.join (splitGo lines half f).1 := by
  induction lines with
  | nil =>
    intro half f
    simp [splitGo, String.join]
  | cons l ls ih =>
    intro half f
    simp only [splitGo]
    split
    · simp only [String.join, List.foldl_cons]
      rw [ih (half - 1) (f ++ l)]
      rw [foldl_append_shift _ (("" : String) ++ l)]
      simp [String.join, String.append_assoc]
    · exact ih half f

lemma two_embeds_eq (ks : List String) (h : Nat) :
    ∃ d, [if (splitGo ks h "").2.2 > 0
            then (String.join (splitGo ks h "").1).dropRight 1
            else ((splitGo ks h "").2.1).dropRight 1,
          if (splitGo ks h "").2.2 > 0
            then ((splitGo ks h "").2.1).dropRight 1
            else (String.join (splitGo ks h "").1).dropRight 1] = [d, d] := by
  have hk : (splitGo ks h "").2.1 = String.join (splitGo ks h "").1 := by
    rw [splitGo_first_eq_join]
    simp
  rw [hk]
  exact ⟨_, by rw [ite_self]⟩

/-- **C9.** The claim says that when the trimmed text does not fit in one
embed, the renderer splits the lines half-by-count between two embeds.  In
the code's two-embed branch, the `retain` closure *keeps* the lines it moved
into the first description, so `lines.concat()` afterwards rebuilds the very
same text: whenever `render_lines_message` emits two embeds, their
descriptions are identical (the second half of the lines is silently
discarded), and in the single-embed case the content never carries a
truncation note. -/
theorem C9_render_lines_message_embeds (content : String) (lines : List String)
    (title : Option String) :
    (∃ d, (render_lines_message content lines title).embeds = [d] ∧
      (render_lines_message content lines title).content = content)
    ∨ ∃ d, (render_lines_message content lines title).embeds = [d, d] := by
  simp only [render_lines_message]
  split
  · exact Or.inl ⟨_, rfl, rfl⟩
  · exact Or.inr (two_embeds_eq _ _)

end Tracker
